import Mathlib

/-!
Shallow embedding of the Catherine natural-language core
(src/catherine-natural-language.js): intent classification
(initializeIntentPatterns / parseIntent / matchesPatterns / buildIntent),
entity extractors (extractContent / extractNumber / extractTime),
confirmation generation (generateConfirmation), dispatch (executeIntent)
and the main entry point (processMessage).

Modelling conventions:
* JS strings are lists of characters (`Text`); `String.prototype.includes`
  and regex alternations of literals become substring tests.
* Timestamps are integers counting minutes of local time; one day is 1440
  minutes, so `Date.prototype.setHours(h, m, 0, 0)` floors to the day and
  adds `h*60 + m` (JS rolls hours ≥ 24 into later days, as does this model).
* JS numeric literals (confidences, the 0.6 acceptance threshold) are exact
  rationals.
* `Math.random()`-based phrase selection takes an explicit `rng : Nat` and
  indexes the catalog with `rng % length`.
* The Google-API methods called by executeGmail/executeTaskCreate/... are
  external collaborators; they are modelled as an oracle
  `collab : CollabOp → Except Text ActionResult`, where `.error` stands for
  a thrown exception.  `processMessage`'s `try/catch` becomes a `match` on
  that `Except`.  The instrumentation field `ProcResult.calls` records which
  collaborator operations a call performed.
* The object field `this.conversationContext : Map` is threaded through
  `processMessage` explicitly as a `ctx` argument and returned alongside
  the result.
-/

namespace Catherine

/-- Text is modelled as a list of characters. -/
abbrev Text := List Char

/-- Coerce a Lean string literal into the `Text` model. -/
def str (s : String) : Text := s.data

/-- Whitespace test used by trim / whitespace collapsing (JS `\s`,
restricted to the space characters that can occur in this development). -/
def isSpaceB (c : Char) : Bool :=
  c == ' ' || c == '\t' || c == '\n' || c == '\r' || c == '　'

/-- JS `String.prototype.toLowerCase` (character-wise). -/
def lowerT (s : Text) : Text := s.map Char.toLower

/-- JS `String.prototype.trim`. -/
def trimT (s : Text) : Text :=
  ((s.dropWhile isSpaceB).reverse.dropWhile isSpaceB).reverse

/-- `message.toLowerCase().trim()` as performed at the top of parseIntent. -/
def normMsg (s : Text) : Text := trimT (lowerT s)

/-- Does `pat` occur at the head of `s`? -/
def startsWithT : Text → Text → Bool
  | [], _ => true
  | _ :: _, [] => false
  | p :: ps, c :: cs => p == c && startsWithT ps cs

/-- Does `pat` occur as a contiguous substring of `s`?  This is
`new RegExp(literal).test(s)` / `s.includes(literal)`. -/
def containsSub (pat : Text) : Text → Bool
  | [] => pat.isEmpty
  | c :: rest => startsWithT pat (c :: rest) || containsSub pat rest

/-- A regex alternation of literals `a|b|c` tests whether any literal occurs. -/
def anyOf (lits : List Text) (s : Text) : Bool :=
  lits.any (fun p => containsSub p s)

/-- The regex `\d+時` matches iff some digit is immediately followed by
`時` (the last digit of the run is adjacent to `時`). -/
def hasDigitJi : Text → Bool
  | a :: b :: rest => (a.isDigit && b == '時') || hasDigitJi (b :: rest)
  | _ => false

/-- The closed set of intent keys of initializeIntentPatterns, in
declaration order (JS `Object.entries` preserves insertion order). -/
inductive IntentType
  | gmail | taskCreate | taskList | docCreate | sheetCreate
  | calendarCreate | calendarList | vague
  deriving DecidableEq, Repr

/-- Declaration order of the intent pattern table. -/
def intentOrder : List IntentType :=
  [.gmail, .taskCreate, .taskList, .docCreate, .sheetCreate,
   .calendarCreate, .calendarList, .vague]

/-- Keyword pattern groups per intent, each group a predicate on the
lowercased message (from initializeIntentPatterns). -/
def intentKeywords : IntentType → List (Text → Bool)
  | .gmail =>
    [anyOf [str "メール", str "mail", str "gmail", str "受信", str "inbox", str "メッセージ"],
     anyOf [str "新着", str "最新", str "届いた", str "来た", str "受け取った"],
     anyOf [str "確認", str "チェック", str "見", str "読", str "調べ", str "何通"]]
  | .taskCreate =>
    [anyOf [str "タスク", str "todo", str "やること", str "課題", str "仕事", str "作業", str "宿題"],
     anyOf [str "作成", str "作る", str "追加", str "登録", str "入力", str "記録", str "書く"],
     anyOf [str "して", str "頼む", str "お願い", str "やって", str "できる"]]
  | .taskList =>
    [anyOf [str "タスク", str "todo", str "やること", str "課題", str "仕事", str "作業"],
     anyOf [str "一覧", str "リスト", str "確認", str "見せ", str "表示", str "教え", str "知り", str "どんな", str "ある"]]
  | .docCreate =>
    [anyOf [str "ドキュメント", str "文書", str "資料", str "レポート", str "報告書", str "議事録", str "メモ", str "docs"],
     anyOf [str "作成", str "作る", str "書く", str "まとめ", str "準備", str "用意"],
     anyOf [str "して", str "頼む", str "お願い", str "やって", str "できる"]]
  | .sheetCreate =>
    [anyOf [str "スプレッドシート", str "表", str "シート", str "エクセル", str "計算書", str "一覧表", str "sheets"],
     anyOf [str "作成", str "作る", str "準備", str "用意", str "まとめ"]]
  | .calendarCreate =>
    [anyOf [str "予定", str "イベント", str "会議", str "ミーティング", str "打ち合わせ", str "アポ", str "スケジュール"],
     anyOf [str "作成", str "追加", str "入れ", str "登録", str "設定", str "予約"],
     fun s => anyOf [str "明日", str "来週", str "今度", str "後で", str "来月"] s || hasDigitJi s]
  | .calendarList =>
    [anyOf [str "予定", str "イベント", str "会議", str "スケジュール", str "カレンダー"],
     anyOf [str "確認", str "見せ", str "教え", str "一覧", str "どんな", str "ある", str "今後", str "これから"]]
  | .vague =>
    [anyOf [str "何か", str "なんか", str "ちょっと", str "少し", str "適当に", str "よろしく", str "頼む", str "お願い", str "やって", str "して", str "手伝"]]

/-- `minMatches` per intent (from initializeIntentPatterns). -/
def intentMinMatches : IntentType → Nat
  | .gmail => 2
  | .taskCreate => 2
  | .taskList => 2
  | .docCreate => 2
  | .sheetCreate => 1
  | .calendarCreate => 2
  | .calendarList => 2
  | .vague => 1

/-- Baseline confidence per intent (from initializeIntentPatterns).  The JS
decimal literals 0.9, 0.8, 0.7, 1.0 are written as exact rationals in
tenths. -/
def intentConfidence : IntentType → ℚ
  | .gmail => mkRat 9 10
  | .taskCreate => mkRat 8 10
  | .taskList => mkRat 9 10
  | .docCreate => mkRat 8 10
  | .sheetCreate => mkRat 8 10
  | .calendarCreate => mkRat 7 10
  | .calendarList => mkRat 9 10
  | .vague => mkRat 10 10

/-- matchesPatterns: count the pattern groups that match and compare with
`minMatches`. -/
def matchesPatterns (message : Text) (patterns : List (Text → Bool)) (minMatches : Nat) : Bool :=
  Nat.ble minMatches (patterns.countP (fun p => p message))

/-- The type tag carried by a classified Intent.  The vague catch-all is
rewritten to `clarification_needed` by buildIntent; `unknown` is the
fall-through of parseIntent. -/
inductive IntentTag
  | gmail | taskCreate | taskList | docCreate | sheetCreate
  | calendarCreate | calendarList | clarificationNeeded | unknown
  deriving DecidableEq, Repr

/-- The tag buildIntent ends up storing for a matched pattern-table entry. -/
def intentTag : IntentType → IntentTag
  | .gmail => .gmail
  | .taskCreate => .taskCreate
  | .taskList => .taskList
  | .docCreate => .docCreate
  | .sheetCreate => .sheetCreate
  | .calendarCreate => .calendarCreate
  | .calendarList => .calendarList
  | .vague => .clarificationNeeded

/-- Numeric value of an ASCII digit. -/
def digitVal (c : Char) : Nat := c.toNat - 48

/-- Longest digit run at the head of the text. -/
def takeDigits : Text → Text
  | [] => []
  | c :: rest => if c.isDigit then c :: takeDigits rest else []

/-- Decimal value of a digit run. -/
def digitsToNat (ds : Text) : Nat :=
  ds.foldl (fun acc c => acc * 10 + digitVal c) 0

/-- extractNumber: `message.match(/(\d+)/)` — the first maximal run of
decimal digits, parsed; absence yields no value. -/
def extractNumber : Text → Option Nat
  | [] => none
  | c :: rest =>
    if c.isDigit then some (digitsToNat (c :: takeDigits rest))
    else extractNumber rest

/-- JS `extractNumber(message) || d`: `undefined` and `0` are both falsy. -/
def orDefault (o : Option Nat) (d : Nat) : Nat :=
  match o with
  | some n => if n == 0 then d else n
  | none => d

/-- Case-insensitive version of `startsWithT` (regex flag `i`). -/
def ciStartsWith : Text → Text → Bool
  | [], _ => true
  | _ :: _, [] => false
  | p :: ps, c :: cs => (p.toLower == c.toLower) && ciStartsWith ps cs

/-- Worker for `replaceAllCI`: while `skip` is positive the character
belongs to an occurrence already replaced and is dropped; at `skip = 0` a
fresh occurrence of `pat` emits a single space and schedules the rest of
the occurrence for dropping. -/
def replaceAux (pat : Text) : Nat → Text → Text
  | _, [] => []
  | Nat.succ k, _ :: rest => replaceAux pat k rest
  | 0, c :: rest =>
    if 0 < pat.length ∧ ciStartsWith pat (c :: rest) = true then
      ' ' :: replaceAux pat (pat.length - 1) rest
    else
      c :: replaceAux pat 0 rest

/-- `cleaned.replace(new RegExp(word, 'gi'), ' ')`: replace every
(case-insensitive, non-overlapping, left-to-right) occurrence of the
literal `pat` with a single space. -/
def replaceAllCI (pat : Text) (s : Text) : Text := replaceAux pat 0 s

/-- Helper for `.replace(/\s+/g, ' ')`: the flag records whether the
previous character was part of a whitespace run already replaced. -/
def collapseAux : Bool → Text → Text
  | _, [] => []
  | prevSp, c :: rest =>
    if isSpaceB c then
      (if prevSp then [] else [' ']) ++ collapseAux true rest
    else
      c :: collapseAux false rest

/-- `.replace(/\s+/g, ' ')`. -/
def collapseWs (s : Text) : Text := collapseAux false s

/-- extractContent: strip each stop word (case-insensitively) in order,
collapse whitespace, trim. -/
def extractContent (message : Text) (stops : List Text) : Text :=
  trimT (collapseWs (stops.foldl (fun acc w => replaceAllCI w acc) message))

/-- Stop words of the taskCreate slot builder. -/
def taskStops : List Text :=
  [str "タスク", str "todo", str "やること", str "作成", str "作る", str "追加",
   str "登録", str "して", str "ください", str "お願い", str "やって"]

/-- Stop words of the docCreate slot builder. -/
def docStops : List Text :=
  [str "ドキュメント", str "文書", str "資料", str "作成", str "作る", str "書く",
   str "まとめ", str "して", str "ください", str "お願い"]

/-- Stop words of the sheetCreate slot builder. -/
def sheetStops : List Text :=
  [str "スプレッドシート", str "表", str "シート", str "作成", str "作る",
   str "準備", str "して", str "ください"]

/-- Stop words of the calendarCreate slot builder. -/
def calStops : List Text :=
  [str "予定", str "イベント", str "会議", str "ミーティング", str "作成",
   str "追加", str "入れ", str "明日", str "来週"]

/-- A TimeExpression as produced by extractTime.  Timestamps count minutes
of local time; one day is 1440 minutes. -/
structure TimeExpression where
  start : Int
  «end» : Int
  specific : Bool
  deriving DecidableEq, Repr

/-- Separator of the time regex `(\d{1,2})[:時](\d{0,2})`. -/
def isSep (c : Char) : Bool := c == ':' || c == '時'

/-- Value of the minutes capture `(\d{0,2})` (greedy) followed by
`parseInt(x || '0')`: up to two leading digits, `0` when there are none. -/
def minutesAfter : Text → Nat
  | [] => 0
  | [a] => if a.isDigit then digitVal a else 0
  | a :: b :: _ =>
    if a.isDigit then
      (if b.isDigit then digitVal a * 10 + digitVal b else digitVal a)
    else 0

/-- Try to match `(\d{1,2})[:時](\d{0,2})` at the head of the text (two
digits greedily, backtracking to one). -/
def matchTimeAt : Text → Option (Nat × Nat)
  | a :: b :: c :: rest =>
    if a.isDigit && b.isDigit && isSep c then
      some (digitVal a * 10 + digitVal b, minutesAfter rest)
    else if a.isDigit && isSep b then
      some (digitVal a, minutesAfter (c :: rest))
    else none
  | [a, b] =>
    if a.isDigit && isSep b then some (digitVal a, minutesAfter []) else none
  | _ => none

/-- First match of `(\d{1,2})[:時](\d{0,2})` in the text, scanning start
positions left to right (JS `String.prototype.match`). -/
def timeRegexMatch : Text → Option (Nat × Nat)
  | [] => none
  | c :: rest =>
    match matchTimeAt (c :: rest) with
    | some r => some r
    | none => timeRegexMatch rest

/-- `d.setHours(h, m, 0, 0)` on the minute-valued clock: floor to the
start of the day, then add `h` hours and `m` minutes (hours ≥ 24 roll
into later days exactly as in JS). -/
def setHM (t : Int) (h m : Nat) : Int := t - t % 1440 + h * 60 + m

/-- extractTime: 明日 branch (with or without an explicit time), 来週
branch, and the default one-hour-from-now window. -/
def extractTime (now : Int) (message : Text) : TimeExpression :=
  if containsSub (str "明日") message = true then
    match timeRegexMatch message with
    | some (h, m) =>
      { start := setHM (now + 1440) h m,
        «end» := setHM (now + 1440) h m + 60, specific := true }
    | none =>
      { start := setHM (now + 1440) 10 0,
        «end» := setHM (now + 1440) 10 0 + 60, specific := false }
  else if containsSub (str "来週") message = true then
    { start := setHM (now + 7 * 1440) 10 0,
      «end» := setHM (now + 7 * 1440) 10 0 + 60, specific := false }
  else
    { start := now + 60, «end» := now + 120, specific := false }

/-- The `params` object populated by buildIntent (each field is a key that
may or may not be present). -/
structure Params where
  count : Option Nat
  title : Option Text
  time : Option TimeExpression
  days : Option Nat
  originalMessage : Option Text
  deriving DecidableEq, Repr

/-- The empty `params` object. -/
def emptyParams : Params := ⟨none, none, none, none, none⟩

/-- A classified Intent. -/
structure Intent where
  type : IntentTag
  confidence : ℚ
  params : Params
  needsConfirmation : Bool
  deriving DecidableEq, Repr

/-- JS truthiness of a possibly-absent string (`undefined` and `''` are
falsy). -/
def titleTruthy : Option Text → Bool
  | none => false
  | some t => !t.isEmpty

/-- JS template interpolation of a possibly-absent string. -/
def optText : Option Text → Text
  | none => str "undefined"
  | some t => t

/-- buildIntent: populate params and the needsConfirmation flag per tag. -/
def buildIntent (now : Int) (ty : IntentType) (message : Text) (conf : ℚ) : Intent :=
  match ty with
  | .gmail =>
    { type := .gmail, confidence := conf,
      params := { emptyParams with count := some (orDefault (extractNumber message) 5) },
      needsConfirmation := false }
  | .taskCreate =>
    let title := extractContent message taskStops
    { type := .taskCreate, confidence := conf,
      params := { emptyParams with title := some title },
      needsConfirmation := title.isEmpty || Nat.blt title.length 3 }
  | .taskList =>
    { type := .taskList, confidence := conf, params := emptyParams,
      needsConfirmation := false }
  | .docCreate =>
    let title := extractContent message docStops
    { type := .docCreate, confidence := conf,
      params := { emptyParams with title := some title },
      needsConfirmation := title.isEmpty || Nat.blt title.length 2 }
  | .sheetCreate =>
    let title := extractContent message sheetStops
    { type := .sheetCreate, confidence := conf,
      params := { emptyParams with title := some title },
      needsConfirmation := title.isEmpty || Nat.blt title.length 2 }
  | .calendarCreate =>
    let title := extractContent message calStops
    let time := extractTime now message
    { type := .calendarCreate, confidence := conf,
      params := { emptyParams with title := some title, time := some time },
      needsConfirmation := title.isEmpty || !time.specific }
  | .calendarList =>
    { type := .calendarList, confidence := conf,
      params := { emptyParams with days := some (orDefault (extractNumber message) 7) },
      needsConfirmation := false }
  | .vague =>
    { type := .clarificationNeeded, confidence := conf,
      params := { emptyParams with originalMessage := some message },
      needsConfirmation := true }

/-- The for-loop of parseIntent: the first pattern-table entry (in
declaration order) whose match count reaches its `minMatches`. -/
def chooseIntent (msg : Text) : Option IntentType :=
  intentOrder.find? (fun ty => matchesPatterns msg (intentKeywords ty) (intentMinMatches ty))

/-- The fall-through Intent of parseIntent. -/
def unknownIntent : Intent :=
  { type := .unknown, confidence := 0, params := emptyParams,
    needsConfirmation := true }

/-- parseIntent: normalize, take the first matching pattern entry, build
its Intent; otherwise the unknown fall-through.  `userId` is accepted and
ignored, as in the source. -/
def parseIntent (now : Int) (message : Text) (userId : Text) : Intent :=
  match chooseIntent (normMsg message) with
  | some ty => buildIntent now ty message (intentConfidence ty)
  | none => unknownIntent

/-- Success phrase catalog (initializeResponseVariations). -/
def successVariations : List Text :=
  [str "できました！", str "はい、完了しました！", str "お疲れさまでした！",
   str "無事に完了です！", str "バッチリです！", str "やりました！", str "完璧です！"]

/-- Error phrase catalog (initializeResponseVariations). -/
def errorVariations : List Text :=
  [str "あれ、うまくいかなかったみたいです...", str "すみません、エラーが発生しました",
   str "ちょっと問題があったようです", str "申し訳ございません、失敗してしまいました",
   str "うーん、何かおかしいですね..."]

/-- Clarification phrase catalog (initializeResponseVariations). -/
def clarificationVariations : List Text :=
  [str "どのような作業をお手伝いしましょうか？", str "何をしたいか教えてください！",
   str "どんなことでお困りですか？", str "お手伝いできることはありますか？"]

/-- getRandomResponse: `responses[Math.floor(Math.random()*length)]`, with
the random draw supplied as `rng` and reduced mod the catalog length. -/
def getRandomResponse (rng : Nat) (lst : List Text) : Text :=
  lst.getD (rng % lst.length) []

/-- Decimal rendering of an integer timestamp; stands in for
`Date.prototype.toLocaleString` in confirmation messages. -/
def intToText (i : Int) : Text :=
  if i < 0 then '-' :: Nat.toDigits 10 i.natAbs else Nat.toDigits 10 i.toNat

/-- A clarification payload: restated question plus suggested answers. -/
structure Confirmation where
  message : Text
  options : List Text
  deriving DecidableEq, Repr

/-- generateConfirmation: the `confirmOptions[intent.type]` lookup with its
fallback object. -/
def generateConfirmation (rng : Nat) (intent : Intent) : Confirmation :=
  match intent.type with
  | .taskCreate =>
    if titleTruthy intent.params.title then
      { message := str "「" ++ optText intent.params.title ++ str "」というタスクを作成してよろしいですか？",
        options := [str "はい", str "いいえ", str "タイトルを変更"] }
    else
      { message := str "タスクを作成しますね！どんな内容のタスクですか？",
        options := [str "会議の準備", str "レポート作成", str "資料まとめ", str "その他（手入力）"] }
  | .docCreate =>
    if titleTruthy intent.params.title then
      { message := str "「" ++ optText intent.params.title ++ str "」というドキュメントを作成してよろしいですか？",
        options := [str "はい", str "いいえ", str "タイトルを変更"] }
    else
      { message := str "ドキュメントを作成しますね！どんなタイトルにしますか？",
        options := [str "会議資料", str "プロジェクト報告書", str "メモ", str "その他（手入力）"] }
  | .sheetCreate =>
    if titleTruthy intent.params.title then
      { message := str "「" ++ optText intent.params.title ++ str "」というスプレッドシートを作成してよろしいですか？",
        options := [str "はい", str "いいえ", str "タイトルを変更"] }
    else
      { message := str "スプレッドシートを作成しますね！どんな表にしますか？",
        options := [str "タスク管理表", str "売上データ", str "進捗管理", str "その他（手入力）"] }
  | .calendarCreate =>
    match intent.params.time with
    | some t =>
      if t.specific then
        { message := str "「" ++ optText intent.params.title ++ str "」を" ++ intToText t.start ++ str "に作成してよろしいですか？",
          options := [str "はい", str "いいえ", str "時間を変更"] }
      else
        { message := str "「" ++ optText intent.params.title ++ str "」の予定を作成します。いつにしますか？",
          options := [str "今日の午後", str "明日の朝", str "明日の午後", str "具体的な日時を入力"] }
    | none =>
      { message := str "「" ++ optText intent.params.title ++ str "」の予定を作成します。いつにしますか？",
        options := [str "今日の午後", str "明日の朝", str "明日の午後", str "具体的な日時を入力"] }
  | .clarificationNeeded =>
    { message := getRandomResponse rng clarificationVariations,
      options := [str "メールをチェック", str "タスクを作成", str "ドキュメント作成",
                  str "スプレッドシート作成", str "予定を追加", str "その他"] }
  | _ =>
    { message := str "すみません、よく分からなかったです。何をしたいか教えてください。",
      options := [str "メール確認", str "タスク管理", str "ドキュメント作成", str "予定管理"] }

/-- An ActionResult as produced by an executeXxx collaborator call or the
dispatcher's default arm. -/
structure ActionResult where
  success : Bool
  message : Text
  data : Option Text
  deriving DecidableEq, Repr

/-- A collaborator operation with its marshalled parameters: one per arm of
the executeIntent switch. -/
inductive CollabOp
  | gmail (count : Option Nat)
  | taskCreate (title : Option Text)
  | taskList
  | docCreate (title : Option Text)
  | sheetCreate (title : Option Text)
  | calendarCreate (title : Option Text) (time : Option TimeExpression)
  | calendarList (days : Option Nat)
  deriving DecidableEq, Repr

/-- The collaborator operation the executeIntent switch selects for a tag
(none for tags outside the closed enumeration, which hit the default arm). -/
def dispatchOp (intent : Intent) : Option CollabOp :=
  match intent.type with
  | .gmail => some (.gmail intent.params.count)
  | .taskCreate => some (.taskCreate intent.params.title)
  | .taskList => some .taskList
  | .docCreate => some (.docCreate intent.params.title)
  | .sheetCreate => some (.sheetCreate intent.params.title)
  | .calendarCreate => some (.calendarCreate intent.params.title intent.params.time)
  | .calendarList => some (.calendarList intent.params.days)
  | .clarificationNeeded => none
  | .unknown => none

/-- The default arm of the executeIntent switch. -/
def unknownOpResult : ActionResult :=
  { success := false, message := str "その操作はまだ覚えていないです...", data := none }

/-- executeIntent: delegate to the collaborator selected by the switch, or
return the default-arm failure object.  A collaborator throw is `.error`. -/
def executeIntent (collab : CollabOp → Except Text ActionResult)
    (intent : Intent) : Except Text ActionResult :=
  match dispatchOp intent with
  | some op => collab op
  | none => .ok unknownOpResult

/-- The object processMessage returns, with the extra instrumentation
field `calls` recording the collaborator operations this call performed. -/
structure ProcResult where
  success : Bool
  message : Text
  options : Option (List Text)
  needsUserInput : Bool
  pendingIntent : Option Intent
  data : Option Text
  calls : List CollabOp
  deriving DecidableEq, Repr

/-- processMessage: classify; clarify when `needsConfirmation` or
`confidence < 0.6`; otherwise execute, normalizing both the returned
ActionResult and a thrown error.  The per-user conversation context map is
threaded through unchanged (the source never touches it). -/
def processMessage (collab : CollabOp → Except Text ActionResult) (rng : Nat)
    (now : Int) (ctx : List (Text × Intent)) (message : Text) (userId : Text) :
    ProcResult × List (Text × Intent) :=
  let intent := parseIntent now message userId
  if intent.needsConfirmation = true ∨ intent.confidence < mkRat 6 10 then
    let confirmation := generateConfirmation rng intent
    ({ success := true, message := confirmation.message,
       options := some confirmation.options, needsUserInput := true,
       pendingIntent := some intent, data := none, calls := [] }, ctx)
  else
    match executeIntent collab intent with
    | .ok result =>
      ({ success := result.success,
         message := getRandomResponse rng (if result.success then successVariations else errorVariations) ++ str " " ++ result.message,
         options := none, needsUserInput := false, pendingIntent := none,
         data := result.data, calls := (dispatchOp intent).toList }, ctx)
    | .error e =>
      ({ success := false,
         message := getRandomResponse rng errorVariations ++ str " " ++ e,
         options := none, needsUserInput := false, pendingIntent := none,
         data := none, calls := (dispatchOp intent).toList }, ctx)

/-- The pure part of processMessage (the source never reads or writes the
conversation context, so the result is a function of the message alone). -/
def procResult (collab : CollabOp → Except Text ActionResult) (rng : Nat)
    (now : Int) (message : Text) (userId : Text) : ProcResult :=
  let intent := parseIntent now message userId
  if intent.needsConfirmation = true ∨ intent.confidence < mkRat 6 10 then
    let confirmation := generateConfirmation rng intent
    { success := true, message := confirmation.message,
      options := some confirmation.options, needsUserInput := true,
      pendingIntent := some intent, data := none, calls := [] }
  else
    match executeIntent collab intent with
    | .ok result =>
      { success := result.success,
        message := getRandomResponse rng (if result.success then successVariations else errorVariations) ++ str " " ++ result.message,
        options := none, needsUserInput := false, pendingIntent := none,
        data := result.data, calls := (dispatchOp intent).toList }
    | .error e =>
      { success := false,
        message := getRandomResponse rng errorVariations ++ str " " ++ e,
        options := none, needsUserInput := false, pendingIntent := none,
        data := none, calls := (dispatchOp intent).toList }

/-- Concrete collaborator oracles used for witnesses and counterexamples. -/
def collabOk : CollabOp → Except Text ActionResult :=
  fun _ => .ok { success := true, message := str "ok", data := none }

/-- A collaborator oracle whose every call throws with message "boom". -/
def collabFail : CollabOp → Except Text ActionResult :=
  fun _ => .error (str "boom")

/-- The intent stored after the clarification prompt of a title-less
create-task request (Scenario B of the specification). -/
def pendingTaskIntent : Intent := parseIntent 0 (str "タスク追加して") (str "u")

/-- A conversation context holding that pending intent for user "u". -/
def ctx0 : List (Text × Intent) := [(str "u", pendingTaskIntent)]

/-! ### Helper lemmas -/

theorem processMessage_eq (collab : CollabOp → Except Text ActionResult) (rng : Nat)
    (now : Int) (ctx : List (Text × Intent)) (message userId : Text) :
    processMessage collab rng now ctx message userId =
      (procResult collab rng now message userId, ctx) := by
  simp only [processMessage, procResult]
  by_cases hc : (parseIntent now message userId).needsConfirmation = true ∨
      (parseIntent now message userId).confidence < mkRat 6 10
  · rw [if_pos hc, if_pos hc]
  · rw [if_neg hc, if_neg hc]
    cases executeIntent collab (parseIntent now message userId) <;> rfl

theorem processMessage_fst (collab : CollabOp → Except Text ActionResult) (rng : Nat)
    (now : Int) (ctx : List (Text × Intent)) (message userId : Text) :
    (processMessage collab rng now ctx message userId).1 =
      procResult collab rng now message userId := by
  rw [processMessage_eq]

theorem processMessage_snd (collab : CollabOp → Except Text ActionResult) (rng : Nat)
    (now : Int) (ctx : List (Text × Intent)) (message userId : Text) :
    (processMessage collab rng now ctx message userId).2 = ctx := by
  rw [processMessage_eq]

theorem procResult_clarify (collab : CollabOp → Except Text ActionResult) (rng : Nat)
    (now : Int) (message userId : Text)
    (hc : (parseIntent now message userId).needsConfirmation = true ∨
          (parseIntent now message userId).confidence < mkRat 6 10) :
    procResult collab rng now message userId =
      { success := true,
        message := (generateConfirmation rng (parseIntent now message userId)).message,
        options := some (generateConfirmation rng (parseIntent now message userId)).options,
        needsUserInput := true,
        pendingIntent := some (parseIntent now message userId),
        data := none, calls := [] } := by
  simp only [procResult]
  rw [if_pos hc]

theorem procResult_exec_ok (collab : CollabOp → Except Text ActionResult) (rng : Nat)
    (now : Int) (message userId : Text) (result : ActionResult)
    (hc : ¬((parseIntent now message userId).needsConfirmation = true ∨
            (parseIntent now message userId).confidence < mkRat 6 10))
    (hE : executeIntent collab (parseIntent now message userId) = .ok result) :
    procResult collab rng now message userId =
      { success := result.success,
        message := getRandomResponse rng (if result.success then successVariations else errorVariations) ++ str " " ++ result.message,
        options := none, needsUserInput := false, pendingIntent := none,
        data := result.data,
        calls := (dispatchOp (parseIntent now message userId)).toList } := by
  simp only [procResult]
  rw [if_neg hc, hE]

theorem procResult_exec_err (collab : CollabOp → Except Text ActionResult) (rng : Nat)
    (now : Int) (message userId : Text) (e : Text)
    (hc : ¬((parseIntent now message userId).needsConfirmation = true ∨
            (parseIntent now message userId).confidence < mkRat 6 10))
    (hE : executeIntent collab (parseIntent now message userId) = .error e) :
    procResult collab rng now message userId =
      { success := false,
        message := getRandomResponse rng errorVariations ++ str " " ++ e,
        options := none, needsUserInput := false, pendingIntent := none,
        data := none,
        calls := (dispatchOp (parseIntent now message userId)).toList } := by
  simp only [procResult]
  rw [if_neg hc, hE]

theorem buildIntent_type (now : Int) (ty : IntentType) (message : Text) (conf : ℚ) :
    (buildIntent now ty message conf).type = intentTag ty := by
  cases ty <;> rfl

theorem buildIntent_confidence (now : Int) (ty : IntentType) (message : Text) (conf : ℚ) :
    (buildIntent now ty message conf).confidence = conf := by
  cases ty <;> rfl

theorem parseIntent_eq_some (now : Int) (message userId : Text) (ty : IntentType)
    (h : chooseIntent (normMsg message) = some ty) :
    parseIntent now message userId = buildIntent now ty message (intentConfidence ty) := by
  unfold parseIntent
  rw [h]

theorem parseIntent_eq_none (now : Int) (message userId : Text)
    (h : chooseIntent (normMsg message) = none) :
    parseIntent now message userId = unknownIntent := by
  unfold parseIntent
  rw [h]

theorem find?_first {α : Type} (p : α → Bool) (x : α) (pre post : List α)
    (hpre : ∀ y ∈ pre, p y = false) (hx : p x = true) :
    (pre ++ x :: post).find? p = some x := by
  induction pre with
  | nil => simpa using List.find?_cons_of_pos post hx
  | cons a as ih =>
    have ha : p a = false := hpre a (List.mem_cons_self a as)
    rw [List.cons_append, List.find?_cons_of_neg _ (by simp [ha])]
    exact ih (fun y hy => hpre y (List.mem_cons_of_mem a hy))

theorem clarif_response_ne_nil (rng : Nat) :
    getRandomResponse rng clarificationVariations ≠ [] := by
  unfold getRandomResponse
  have hlt : rng % clarificationVariations.length < 4 := by
    have h4 : clarificationVariations.length = 4 := by rfl
    rw [h4]
    exact Nat.mod_lt _ (by norm_num)
  have hall : ∀ i, i < 4 → clarificationVariations.getD i [] ≠ [] := by decide
  exact hall _ hlt

theorem genConf_options_ne_nil (rng : Nat) (intent : Intent) :
    (generateConfirmation rng intent).options ≠ [] := by
  unfold generateConfirmation
  split <;> (repeat' split) <;> simp

theorem genConf_message_ne_nil (rng : Nat) (intent : Intent) :
    (generateConfirmation rng intent).message ≠ [] := by
  unfold generateConfirmation
  split <;> (repeat' split) <;>
    first
      | exact clarif_response_ne_nil rng
      | simp [str]

theorem parseIntent_dispatch (now : Int) (message userId : Text)
    (h : (parseIntent now message userId).needsConfirmation = false) :
    ∃ op, dispatchOp (parseIntent now message userId) = some op := by
  cases hch : chooseIntent (normMsg message) with
  | none =>
    rw [parseIntent_eq_none now message userId hch] at h
    exact absurd h (by decide)
  | some ty =>
    rw [parseIntent_eq_some now message userId ty hch] at h ⊢
    cases ty <;> first
      | exact ⟨_, rfl⟩
      | (exfalso; simp [buildIntent] at h)

/-! ### Claims -/

/-- Claim C1, counterexample.  Even with a pending create-task intent for
user "u" stored in the conversation context, the follow-up "meeting prep"
from the same user performs no collaborator call at all (in particular no
task-collaborator call with title "meeting prep"); it yields a fresh
clarification payload and leaves the context exactly as it was. -/
theorem claim1_counterexample :
    pendingTaskIntent.type = IntentTag.taskCreate ∧
    pendingTaskIntent.needsConfirmation = true ∧
    (processMessage collabOk 0 0 ctx0 (str "meeting prep") (str "u")).1.calls = [] ∧
    (processMessage collabOk 0 0 ctx0 (str "meeting prep") (str "u")).1.needsUserInput = true ∧
    (processMessage collabOk 0 0 ctx0 (str "meeting prep") (str "u")).1.pendingIntent = some unknownIntent ∧
    (processMessage collabOk 0 0 ctx0 (str "meeting prep") (str "u")).2 = ctx0 := by
  decide

/-- Claim C1, amended.  processMessage never consults the stored
conversation context: whatever pending intent the context holds, the
follow-up "meeting prep" is classified from scratch as `unknown`, produces
a clarification payload, dispatches to no collaborator, and returns the
context unchanged. -/
theorem claim1_amended (collab : CollabOp → Except Text ActionResult) (rng : Nat)
    (now : Int) (ctx : List (Text × Intent)) (userId : Text) :
    parseIntent now (str "meeting prep") userId = unknownIntent ∧
    (processMessage collab rng now ctx (str "meeting prep") userId).1.calls = [] ∧
    (processMessage collab rng now ctx (str "meeting prep") userId).1.needsUserInput = true ∧
    (processMessage collab rng now ctx (str "meeting prep") userId).2 = ctx :=
  ⟨rfl, rfl, rfl, rfl⟩

/-- Claim C2, counterexample.  The input "hello" reaches `minMatches` for
no intent's pattern group (the catch-all included), yet classification
returns `unknown` with confidence 0, not `clarification_needed` with the
catch-all's baseline confidence. -/
theorem claim2_counterexample :
    (∀ ty ∈ intentOrder,
      matchesPatterns (normMsg (str "hello")) (intentKeywords ty) (intentMinMatches ty) = false) ∧
    parseIntent 0 (str "hello") (str "user") = unknownIntent ∧
    unknownIntent.type ≠ IntentTag.clarificationNeeded ∧
    unknownIntent.confidence = 0 := by
  decide

/-- Claim C2, amended.  For every input text whose match count reaches
`minMatches` for no intent's pattern group (the catch-all included),
classification returns the `unknown` fall-through with confidence 0; the
catch-all does not cover every input. -/
theorem claim2_amended (now : Int) (message userId : Text)
    (h : ∀ ty ∈ intentOrder,
      matchesPatterns (normMsg message) (intentKeywords ty) (intentMinMatches ty) = false) :
    parseIntent now message userId = unknownIntent := by
  have hch : chooseIntent (normMsg message) = none := by
    unfold chooseIntent
    exact List.find?_eq_none.mpr (fun ty hmem => by simp [h ty hmem])
  exact parseIntent_eq_none now message userId hch

/-- Witness for the amended Claim C2 at the concrete input "hello". -/
theorem claim2_witness :
    parseIntent 7 (str "hello") (str "alice") = unknownIntent :=
  claim2_amended 7 (str "hello") (str "alice") (by decide)

/-- Claim C3 (confirmed).  Intent patterns are evaluated in declaration
order with first-match-wins: if the normalized text reaches `minMatches`
for entry X of the pattern table and for no earlier-declared entry, then
classification returns X's tag (the catch-all carries the
`clarification_needed` tag) with X's baseline confidence. -/
theorem claim3 (now : Int) (message userId : Text) (pre post : List IntentType)
    (X : IntentType) (horder : intentOrder = pre ++ X :: post)
    (hpre : ∀ Y ∈ pre,
      matchesPatterns (normMsg message) (intentKeywords Y) (intentMinMatches Y) = false)
    (hX : matchesPatterns (normMsg message) (intentKeywords X) (intentMinMatches X) = true) :
    (parseIntent now message userId).type = intentTag X ∧
    (parseIntent now message userId).confidence = intentConfidence X := by
  have hfind : chooseIntent (normMsg message) = some X := by
    unfold chooseIntent
    rw [horder]
    exact find?_first _ X pre post hpre hX
  rw [parseIntent_eq_some now message userId X hfind]
  exact ⟨buildIntent_type now X message _, buildIntent_confidence now X message _⟩

/-- Witness for Claim C3: "タスク追加して" matches the second-declared
entry (taskCreate) and not the first (gmail). -/
theorem claim3_witness :
    (parseIntent 0 (str "タスク追加して") (str "u")).type = intentTag IntentType.taskCreate ∧
    (parseIntent 0 (str "タスク追加して") (str "u")).confidence = intentConfidence IntentType.taskCreate :=
  claim3 0 (str "タスク追加して") (str "u") [IntentType.gmail]
    [IntentType.taskList, IntentType.docCreate, IntentType.sheetCreate,
     IntentType.calendarCreate, IntentType.calendarList, IntentType.vague]
    IntentType.taskCreate rfl (by decide) (by decide)

/-- Claim C5 (confirmed).  For every input, the classified intent has
confidence 0 exactly when its type is `unknown`: every matched pattern
entry carries a strictly positive baseline confidence and the fall-through
carries exactly 0. -/
theorem claim5 (now : Int) (message userId : Text) :
    (parseIntent now message userId).confidence = 0 ↔
    (parseIntent now message userId).type = IntentTag.unknown := by
  cases h : chooseIntent (normMsg message) with
  | none =>
    rw [parseIntent_eq_none now message userId h]
    decide
  | some ty =>
    rw [parseIntent_eq_some now message userId ty h, buildIntent_type,
      buildIntent_confidence]
    cases ty <;> decide

theorem extractTime_tomorrow_some (now : Int) (message : Text) (hr mi : Nat)
    (hA : containsSub (str "明日") message = true)
    (hT : timeRegexMatch message = some (hr, mi)) :
    extractTime now message =
      { start := setHM (now + 1440) hr mi,
        «end» := setHM (now + 1440) hr mi + 60, specific := true } := by
  unfold extractTime
  rw [if_pos hA, hT]

theorem extractTime_tomorrow_none (now : Int) (message : Text)
    (hA : containsSub (str "明日") message = true)
    (hT : timeRegexMatch message = none) :
    extractTime now message =
      { start := setHM (now + 1440) 10 0,
        «end» := setHM (now + 1440) 10 0 + 60, specific := false } := by
  unfold extractTime
  rw [if_pos hA, hT]

theorem extractTime_not_tomorrow (now : Int) (message : Text)
    (hA : ¬ containsSub (str "明日") message = true) :
    (extractTime now message).specific = false := by
  unfold extractTime
  rw [if_neg hA]
  split <;> rfl

/-- Claim C4, counterexample.  The input "14時に会議" carries an explicit
HH:MM-like time (the time regex matches it as 14:00), yet the extracted
TimeExpression has `specific = false`: the extractor only honors the
explicit time when the message also contains 明日. -/
theorem claim4_counterexample :
    (timeRegexMatch (str "14時に会議")).isSome = true ∧
    timeRegexMatch (str "14時に会議") = some (14, 0) ∧
    (extractTime 0 (str "14時に会議")).specific = false := by
  decide

/-- Claim C4, amended.  `specific = true` exactly when the text contains
the relative-day marker 明日 AND an explicit HH:MM-like pattern; in that
case the start is tomorrow's day set to the stated literal time, so its
time-of-day equals the literal hour and minute. -/
theorem claim4_amended (now : Int) (message : Text) :
    ((extractTime now message).specific = true ↔
      (containsSub (str "明日") message = true ∧ (timeRegexMatch message).isSome = true)) ∧
    (∀ hr mi : Nat, containsSub (str "明日") message = true →
      timeRegexMatch message = some (hr, mi) →
      (extractTime now message).start = setHM (now + 1440) hr mi ∧
      (extractTime now message).start % 1440 = ((hr : Int) * 60 + (mi : Int)) % 1440) := by
  by_cases hA : containsSub (str "明日") message = true
  · cases hT : timeRegexMatch message with
    | some p =>
      obtain ⟨h, m⟩ := p
      rw [extractTime_tomorrow_some now message h m hA hT]
      constructor
      · simp [hA, hT]
      · intro hr mi _ hEq
        simp only [Option.some.injEq, Prod.mk.injEq] at hEq
        obtain ⟨rfl, rfl⟩ := hEq
        refine ⟨rfl, ?_⟩
        dsimp only
        unfold setHM
        omega
    | none =>
      rw [extractTime_tomorrow_none now message hA hT]
      constructor
      · simp [hA, hT]
      · intro hr mi _ hEq
        exact absurd hEq (by simp)
  · constructor
    · rw [extractTime_not_tomorrow now message hA]
      simp [hA]
    · intro hr mi hcontra _
      exact absurd hcontra hA

/-- Witness for the amended Claim C4 at "明日14時に会議" (tomorrow 14:00). -/
theorem claim4_witness :
    (extractTime 0 (str "明日14時に会議")).start = setHM (0 + 1440) 14 0 ∧
    (extractTime 0 (str "明日14時に会議")).start % 1440 = ((14 : Int) * 60 + (0 : Int)) % 1440 :=
  (claim4_amended 0 (str "明日14時に会議")).2 14 0 (by decide) (by decide)

/-- Claim C6 (confirmed).  A collaborator is invoked exactly when the
classified intent has `needsConfirmation = false` and confidence at or
above the fixed 0.6 acceptance threshold; otherwise no collaborator is
called and the result is a clarification payload with a non-empty prompt
message and a non-empty options list. -/
theorem claim6 (collab : CollabOp → Except Text ActionResult) (rng : Nat)
    (now : Int) (ctx : List (Text × Intent)) (message userId : Text) :
    ((processMessage collab rng now ctx message userId).1.calls ≠ [] ↔
      ((parseIntent now message userId).needsConfirmation = false ∧
        mkRat 6 10 ≤ (parseIntent now message userId).confidence)) ∧
    ((parseIntent now message userId).needsConfirmation = true ∨
        (parseIntent now message userId).confidence < mkRat 6 10 →
      (processMessage collab rng now ctx message userId).1.calls = [] ∧
      (processMessage collab rng now ctx message userId).1.needsUserInput = true ∧
      (processMessage collab rng now ctx message userId).1.message ≠ [] ∧
      ∃ opts, (processMessage collab rng now ctx message userId).1.options = some opts ∧
        opts ≠ []) := by
  rw [processMessage_fst]
  by_cases hc : (parseIntent now message userId).needsConfirmation = true ∨
      (parseIntent now message userId).confidence < mkRat 6 10
  · rw [procResult_clarify collab rng now message userId hc]
    constructor
    · constructor
      · intro hne
        exact absurd rfl hne
      · rintro ⟨hnc, hge⟩
        rcases hc with h | h
        · rw [hnc] at h
          exact absurd h Bool.false_ne_true
        · exact absurd h (not_lt.mpr hge)
    · intro _
      exact ⟨rfl, rfl, genConf_message_ne_nil rng _, _, rfl, genConf_options_ne_nil rng _⟩
  · have h1 : ¬(parseIntent now message userId).needsConfirmation = true :=
      fun h => hc (Or.inl h)
    have h2 : mkRat 6 10 ≤ (parseIntent now message userId).confidence :=
      not_lt.mp (fun h => hc (Or.inr h))
    have hnc : (parseIntent now message userId).needsConfirmation = false := by
      cases hb : (parseIntent now message userId).needsConfirmation
      · rfl
      · exact absurd hb h1
    obtain ⟨op, hop⟩ := parseIntent_dispatch now message userId hnc
    cases hE : executeIntent collab (parseIntent now message userId) with
    | ok result =>
      rw [procResult_exec_ok collab rng now message userId result hc hE]
      constructor
      · constructor
        · intro _
          exact ⟨hnc, h2⟩
        · intro _
          show (dispatchOp _).toList ≠ []
          rw [hop]
          simp
      · intro h'
        exact absurd h' hc
    | error e =>
      rw [procResult_exec_err collab rng now message userId e hc hE]
      constructor
      · constructor
        · intro _
          exact ⟨hnc, h2⟩
        · intro _
          show (dispatchOp _).toList ≠ []
          rw [hop]
          simp
      · intro h'
        exact absurd h' hc

/-- Witness for Claim C6: the filler input "よろしく" classifies as
`clarification_needed` with `needsConfirmation = true`, so no collaborator
runs and a clarification payload with non-empty options is produced. -/
theorem claim6_witness :
    (processMessage collabOk 0 0 [] (str "よろしく") (str "u")).1.calls = [] ∧
    (processMessage collabOk 0 0 [] (str "よろしく") (str "u")).1.needsUserInput = true ∧
    (processMessage collabOk 0 0 [] (str "よろしく") (str "u")).1.message ≠ [] ∧
    ∃ opts, (processMessage collabOk 0 0 [] (str "よろしく") (str "u")).1.options = some opts ∧
      opts ≠ [] :=
  (claim6 collabOk 0 0 [] (str "よろしく") (str "u")).2 (Or.inl (by decide))

/-- Claim C7 (confirmed).  Every TimeExpression the extractor produces,
for every input text and clock value, satisfies `end > start` (each branch
sets `end` to `start` plus one hour). -/
theorem claim7 (now : Int) (message : Text) :
    (extractTime now message).start < (extractTime now message).«end» := by
  unfold extractTime
  split <;> (try split) <;> dsimp only <;> omega

/-- Claim C8 (confirmed).  A text with no recognized time marker (no
HH:MM-like pattern, no 明日, no 来週) yields the default window: start one
hour after the current time, end one hour after that start, not specific. -/
theorem claim8 (now : Int) (message : Text)
    (h1 : timeRegexMatch message = none)
    (h2 : containsSub (str "明日") message = false)
    (h3 : containsSub (str "来週") message = false) :
    (extractTime now message).start = now + 60 ∧
    (extractTime now message).«end» = (extractTime now message).start + 60 ∧
    (extractTime now message).specific = false := by
  have hdef : extractTime now message =
      { start := now + 60, «end» := now + 120, specific := false } := by
    unfold extractTime
    rw [h2, h3]
    simp
  rw [hdef]
  refine ⟨rfl, ?_, rfl⟩
  dsimp only
  omega

/-- Witness for Claim C8 at the marker-free input "こんにちは". -/
theorem claim8_witness :
    (extractTime 5 (str "こんにちは")).start = 5 + 60 ∧
    (extractTime 5 (str "こんにちは")).«end» = (extractTime 5 (str "こんにちは")).start + 60 ∧
    (extractTime 5 (str "こんにちは")).specific = false :=
  claim8 5 (str "こんにちは") (by decide) (by decide) (by decide)

/-- Claim C9 (confirmed).  A tag outside the dispatcher's closed
enumeration hits the default arm and yields `success = false` without
throwing; at most one collaborator call is ever made (no retry); and when
the dispatched collaborator throws, processMessage returns normally with
`success = false` and a message that ends with the collaborator-provided
error text. -/
theorem claim9 (collab : CollabOp → Except Text ActionResult) (rng : Nat)
    (now : Int) (ctx : List (Text × Intent)) (message userId : Text) :
    (∀ intent : Intent, dispatchOp intent = none →
      executeIntent collab intent = .ok unknownOpResult) ∧
    (processMessage collab rng now ctx message userId).1.calls.length ≤ 1 ∧
    (∀ e : Text, executeIntent collab (parseIntent now message userId) = .error e →
      ¬((parseIntent now message userId).needsConfirmation = true ∨
          (parseIntent now message userId).confidence < mkRat 6 10) →
      (processMessage collab rng now ctx message userId).1.success = false ∧
      ∃ p, (processMessage collab rng now ctx message userId).1.message = p ++ e) := by
  refine ⟨?_, ?_, ?_⟩
  · intro intent h
    unfold executeIntent
    rw [h]
  · rw [processMessage_fst]
    by_cases hc : (parseIntent now message userId).needsConfirmation = true ∨
        (parseIntent now message userId).confidence < mkRat 6 10
    · rw [procResult_clarify collab rng now message userId hc]
      simp
    · cases hE : executeIntent collab (parseIntent now message userId) with
      | ok result =>
        rw [procResult_exec_ok collab rng now message userId result hc hE]
        show (dispatchOp _).toList.length ≤ 1
        cases dispatchOp (parseIntent now message userId) <;> simp
      | error e =>
        rw [procResult_exec_err collab rng now message userId e hc hE]
        show (dispatchOp _).toList.length ≤ 1
        cases dispatchOp (parseIntent now message userId) <;> simp
  · intro e hE hc
    rw [processMessage_fst, procResult_exec_err collab rng now message userId e hc hE]
    exact ⟨rfl, getRandomResponse rng errorVariations ++ str " ", rfl⟩

/-- Witness for Claim C9: with a collaborator that always throws "boom",
the confidently-classified input "メール確認して" produces a normal
`success = false` result whose message embeds "boom". -/
theorem claim9_witness :
    (processMessage collabFail 0 0 [] (str "メール確認して") (str "u")).1.success = false ∧
    ∃ p, (processMessage collabFail 0 0 [] (str "メール確認して") (str "u")).1.message =
      p ++ str "boom" :=
  (claim9 collabFail 0 0 [] (str "メール確認して") (str "u")).2.2 (str "boom")
    (by rfl) (by decide)

/-- Claim C10 (confirmed).  Classification is identical for any two user
ids, the processMessage result is independent of the conversation context,
and the context map is returned unchanged by every call: the per-user
context is neither read nor written. -/
theorem claim10 (collab : CollabOp → Except Text ActionResult) (rng : Nat)
    (now : Int) (ctx ctx2 : List (Text × Intent)) (message u1 u2 : Text) :
    parseIntent now message u1 = parseIntent now message u2 ∧
    (processMessage collab rng now ctx message u1).1 =
      (processMessage collab rng now ctx2 message u2).1 ∧
    (processMessage collab rng now ctx message u1).2 = ctx := by
  refine ⟨rfl, ?_, processMessage_snd collab rng now ctx message u1⟩
  rw [processMessage_fst, processMessage_fst]
  rfl

end Catherine
